import Mathlib

/-!
Verification of the gesture-detection engine (`src/gesture_detection.py`):
pose normalization (displacement / scale / rotation invariance), typed
condition evaluation (distance / angle / position), first-match gesture
detection, and the analogue-value extractor.

Floating-point numbers are modelled as real numbers; Python exceptions
(IndexError from list indexing) are modelled with `Option` (`none` = raise).
Python's negative-index list semantics are modelled by `pyGet`.
-/

namespace GestureDetection

open Classical

noncomputable section

/-- A hand landmark: the `{x, y, z}` dicts of the Python code. -/
@[ext] structure Landmark where
  x : ℝ
  y : ℝ
  z : ℝ

instance : Inhabited Landmark := ⟨⟨0, 0, 0⟩⟩

/-- The `transformations` block of the configuration. -/
structure TransformConfig where
  displacement_invariant : Bool
  scale_invariant : Bool
  rotation_invariant : Bool

/-- A condition dict: optional fields model `dict.get`.  `points` holds
Python ints (possibly negative); `point` defaults to 0 in the source
(`condition.get('point', 0)`). -/
structure Condition where
  type : Option String
  points : List Int
  min : Option ℝ
  max : Option ℝ
  point : Int
  x_min : Option ℝ
  x_max : Option ℝ
  y_min : Option ℝ
  y_max : Option ℝ

/-- A gesture definition: `{name, conditions}`. -/
structure Gesture where
  name : String
  conditions : List Condition

/-- Python list indexing `l[i]` for `i : Int`: wraps negative indices,
raises (`none`) when `i ≥ len l` or `i < -len l`. -/
def pyGet {α : Type} (l : List α) (i : Int) : Option α :=
  if 0 ≤ i then l.get? i.toNat
  else if i + (l.length : Int) < 0 then none
  else l.get? (i + (l.length : Int)).toNat

/-- `_euclidean_distance`: 3-D Euclidean distance. -/
def euclidean_distance (p1 p2 : Landmark) : ℝ :=
  Real.sqrt ((p1.x - p2.x) * (p1.x - p2.x) + (p1.y - p2.y) * (p1.y - p2.y) +
    (p1.z - p2.z) * (p1.z - p2.z))

/-- Python `math.atan2 y x`. -/
def atan2 (y x : ℝ) : ℝ :=
  if 0 < x then Real.arctan (y / x)
  else if x < 0 then
    (if 0 ≤ y then Real.arctan (y / x) + Real.pi else Real.arctan (y / x) - Real.pi)
  else
    (if 0 < y then Real.pi / 2 else if y < 0 then -(Real.pi / 2) else 0)

/-- `_calculate_angle`: signed 2-D bearing from `point1` to `point2`. -/
def calculate_angle (p1 p2 : Landmark) : ℝ :=
  atan2 (p2.y - p1.y) (p2.x - p1.x)

/-- `_calculate_angle_three_points`: the 2-D angle at vertex `p2` between
`p1` and `p3`, in degrees, computed via the clamped cosine formula;
0 when either vector has zero magnitude. -/
def calculate_angle_three_points (p1 p2 p3 : Landmark) : ℝ :=
  let v1x := p1.x - p2.x
  let v1y := p1.y - p2.y
  let v2x := p3.x - p2.x
  let v2y := p3.y - p2.y
  let dot_product := v1x * v2x + v1y * v2y
  let mag1 := Real.sqrt (v1x * v1x + v1y * v1y)
  let mag2 := Real.sqrt (v2x * v2x + v2y * v2y)
  if mag1 = 0 ∨ mag2 = 0 then 0
  else
    let cos_angle := max (-1) (min 1 (dot_product / (mag1 * mag2)))
    Real.arccos cos_angle * (180 / Real.pi)

/-- `_rotate_points`: rotate the x,y of every point about the origin;
z is carried through unchanged. -/
def rotate_points (landmarks : List Landmark) (angle : ℝ) : List Landmark :=
  landmarks.map fun p =>
    ⟨p.x * Real.cos angle - p.y * Real.sin angle,
      p.x * Real.sin angle + p.y * Real.cos angle, p.z⟩

/-- Displacement-invariance step of `normalize_keypoints`: when enabled,
center every landmark on the wrist (landmark 0). -/
def center_step (enabled : Bool) (landmarks : List Landmark) : List Landmark :=
  if enabled then
    landmarks.map fun p =>
      ⟨p.x - (landmarks.getD 0 default).x, p.y - (landmarks.getD 0 default).y,
        p.z - (landmarks.getD 0 default).z⟩
  else landmarks

/-- Scale-invariance step of `normalize_keypoints`: when enabled and the
wrist-to-middle-finger-base distance is positive, divide every coordinate
by it; otherwise leave the points as-is. -/
def scale_step (enabled : Bool) (landmarks : List Landmark) : List Landmark :=
  if enabled then
    if 9 < landmarks.length then
      if 0 < euclidean_distance (landmarks.getD 0 default) (landmarks.getD 9 default) then
        landmarks.map fun p =>
          ⟨p.x / euclidean_distance (landmarks.getD 0 default) (landmarks.getD 9 default),
            p.y / euclidean_distance (landmarks.getD 0 default) (landmarks.getD 9 default),
            p.z / euclidean_distance (landmarks.getD 0 default) (landmarks.getD 9 default)⟩
      else landmarks
    else landmarks
  else landmarks

/-- Rotation-invariance step of `normalize_keypoints`: when enabled, rotate
the whole pose by minus the bearing from landmark 0 to landmark 8. -/
def rotate_step (enabled : Bool) (landmarks : List Landmark) : List Landmark :=
  if enabled then
    if 8 < landmarks.length then
      rotate_points landmarks
        (-(calculate_angle (landmarks.getD 0 default) (landmarks.getD 8 default)))
    else landmarks
  else landmarks

/-- `normalize_keypoints`: returns an undersized pose unchanged, otherwise
applies center, scale and rotation steps in order, each toggled by the
configuration. -/
def normalize_keypoints (cfg : TransformConfig) (landmarks : List Landmark) :
    List Landmark :=
  if landmarks.length < 21 then landmarks
  else
    rotate_step cfg.rotation_invariant
      (scale_step cfg.scale_invariant
        (center_step cfg.displacement_invariant landmarks))

/-- `_check_distance_condition`.  The result is `Option Bool`: `none` models
a raised IndexError (reachable only through Python negative indexing). -/
def check_distance_condition (landmarks : List Landmark) (c : Condition) :
    Option Bool :=
  if c.points.length ≠ 2 then some false
  else
    let i1 := c.points.getD 0 0
    let i2 := c.points.getD 1 0
    if (landmarks.length : Int) ≤ i1 ∨ (landmarks.length : Int) ≤ i2 then some false
    else
      match pyGet landmarks i1, pyGet landmarks i2 with
      | some p1, some p2 =>
          let d := euclidean_distance p1 p2
          some ((match c.min with
                 | none => true
                 | some m => decide (m < d)) &&
                (match c.max with
                 | none => true
                 | some m => decide (d < m)))
      | _, _ => none

/-- `_check_angle_condition`. -/
def check_angle_condition (landmarks : List Landmark) (c : Condition) :
    Option Bool :=
  if c.points.length ≠ 3 then some false
  else
    let i1 := c.points.getD 0 0
    let i2 := c.points.getD 1 0
    let i3 := c.points.getD 2 0
    if (landmarks.length : Int) ≤ i1 ∨ (landmarks.length : Int) ≤ i2 ∨
        (landmarks.length : Int) ≤ i3 then some false
    else
      match pyGet landmarks i1, pyGet landmarks i2, pyGet landmarks i3 with
      | some p1, some p2, some p3 =>
          let a := calculate_angle_three_points p1 p2 p3
          some ((match c.min with
                 | none => true
                 | some m => decide (m < a)) &&
                (match c.max with
                 | none => true
                 | some m => decide (a < m)))
      | _, _, _ => none

/-- `_check_position_condition`. -/
def check_position_condition (landmarks : List Landmark) (c : Condition) :
    Option Bool :=
  if (landmarks.length : Int) ≤ c.point then some false
  else
    match pyGet landmarks c.point with
    | some p =>
        some ((match c.x_min with
               | none => true
               | some m => !decide (p.x < m)) &&
              (match c.x_max with
               | none => true
               | some m => !decide (m < p.x)) &&
              (match c.y_min with
               | none => true
               | some m => !decide (p.y < m)) &&
              (match c.y_max with
               | none => true
               | some m => !decide (m < p.y)))
    | none => none

/-- `_evaluate_condition`: dispatch on the `type` tag; unknown tags give
`false`. -/
def evaluate_condition (landmarks : List Landmark) (c : Condition) : Option Bool :=
  if c.type = some "distance" then check_distance_condition landmarks c
  else if c.type = some "angle" then check_angle_condition landmarks c
  else if c.type = some "position" then check_position_condition landmarks c
  else some false

/-- The loop body of `_check_gesture_conditions`: AND over the conditions,
short-circuiting on the first `false`, propagating a raise. -/
def conditions_hold (landmarks : List Landmark) : List Condition → Option Bool
  | [] => some true
  | c :: rest =>
      match evaluate_condition landmarks c with
      | none => none
      | some false => some false
      | some true => conditions_hold landmarks rest

/-- `_check_gesture_conditions`. -/
def check_gesture_conditions (landmarks : List Landmark) (g : Gesture) :
    Option Bool :=
  conditions_hold landmarks g.conditions

/-- The gesture loop of `detect_gesture`. -/
def detect_go (landmarks : List Landmark) : List Gesture → Option (Option String)
  | [] => some none
  | g :: rest =>
      match check_gesture_conditions landmarks g with
      | none => none
      | some true => some (some g.name)
      | some false => detect_go landmarks rest

/-- `detect_gesture`: `some none` = "no gesture", `some (some n)` = gesture
`n` detected, outer `none` = a raise inside condition evaluation. -/
def detect_gesture (gesture_defs : List Gesture) (landmarks : List Landmark) :
    Option (Option String) :=
  if landmarks.length < 21 then some none
  else detect_go landmarks gesture_defs

/-- `get_analogue_value`: `1 - thumb-tip y` for the `thumbs_up` gesture
(when the pose has more than 4 landmarks), `none` otherwise. -/
def get_analogue_value (landmarks : List Landmark) (gesture_name : String) :
    Option ℝ :=
  if gesture_name = "thumbs_up" ∧ 4 < landmarks.length then
    some (1 - (landmarks.getD 4 default).y)
  else none

/-- Uniform scaling of a pose by `k` (the `scale(P,k)` of the spec). -/
def scale_pose (k : ℝ) (pose : List Landmark) : List Landmark :=
  pose.map fun p => ⟨k * p.x, k * p.y, k * p.z⟩

/-- Inclusive-bound interval membership, as the spec words the distance and
angle conditions (absent bound = no constraint). -/
def incl_within (lo hi : Option ℝ) (v : ℝ) : Prop :=
  (∀ m ∈ lo, m ≤ v) ∧ (∀ m ∈ hi, v ≤ m)

/-- Strict-bound interval membership, as the code actually compares
(`min < value < max`; absent bound = no constraint). -/
def strict_within (lo hi : Option ℝ) (v : ℝ) : Prop :=
  (∀ m ∈ lo, m < v) ∧ (∀ m ∈ hi, v < m)

/-- The all-zero 21-point pose, used as a concrete test input. -/
def poseZ : List Landmark := List.replicate 21 ⟨0, 0, 0⟩

/-- A 21-point pose with landmark 1 at `(1,0,0)` and every other landmark
at the origin, so the landmark-0-to-landmark-1 distance is exactly 1. -/
def poseD1 : List Landmark := ⟨0, 0, 0⟩ :: ⟨1, 0, 0⟩ :: List.replicate 19 ⟨0, 0, 0⟩

/-- A 21-point pose with landmark 8 (index tip) at `(0,1,0)` and every other
landmark at the origin: the wrist-to-index-tip bearing is `π/2`. -/
def poseUp : List Landmark :=
  List.replicate 8 ⟨0, 0, 0⟩ ++ ⟨0, 1, 0⟩ :: List.replicate 12 ⟨0, 0, 0⟩

/-- A distance condition on points 0 and 1 with `max = 1` and no `min`. -/
def condAtMax : Condition :=
  ⟨some "distance", [0, 1], none, some 1, 0, none, none, none, none⟩

/-- A distance condition whose first landmark index is the negative Python
index `-1`, with `max = 10` and no `min`. -/
def condNegIdx : Condition :=
  ⟨some "distance", [-1, 0], none, some 10, 0, none, none, none, none⟩

/-- A distance condition referencing the out-of-range index 99. -/
def condIdx99 : Condition :=
  ⟨some "distance", [99, 0], none, some 10, 0, none, none, none, none⟩

/-- A position condition on point 0 with no bounds: always true. -/
def condTrue : Condition :=
  ⟨some "position", [], none, none, 0, none, none, none, none⟩

/-- A condition with no `type` tag at all. -/
def condUntyped : Condition :=
  ⟨none, [0, 1], none, some 1, 0, none, none, none, none⟩

/-- A distance condition whose points list has a single entry. -/
def condOnePoint : Condition :=
  ⟨some "distance", [0], none, some 1, 0, none, none, none, none⟩

/-- A gesture with an always-true condition, named `open_palm`. -/
def gestureA : Gesture := ⟨"open_palm", [condTrue]⟩

/-- A second gesture with an always-true condition, named `fist`. -/
def gestureB : Gesture := ⟨"fist", [condTrue]⟩

/-- A distance condition on points 0 and 1 with `max = 2` and no `min`. -/
def condBelow2 : Condition :=
  ⟨some "distance", [0, 1], none, some 2, 0, none, none, none, none⟩

/-- A 21-point pose with landmark 9 (middle-finger base) at `(1,0,0)` and
every other landmark at the origin, so the scale reference is 1. -/
def poseS : List Landmark :=
  List.replicate 9 ⟨0, 0, 0⟩ ++ ⟨1, 0, 0⟩ :: List.replicate 11 ⟨0, 0, 0⟩

/-- Configuration enabling only rotation invariance. -/
def cfgRot : TransformConfig := ⟨false, false, true⟩

/-- Configuration enabling all three invariance transforms. -/
def cfgAll : TransformConfig := ⟨true, true, true⟩

/-- `getD` of a mapped list at an in-range index is the function applied to
`getD` of the original list. -/
theorem getD_map {α β : Type} [Inhabited α] [Inhabited β] (f : α → β)
    (l : List α) (i : ℕ) (h : i < l.length) :
    (l.map f).getD i default = f (l.getD i default) := by
  induction l generalizing i with
  | nil => simp at h
  | cons a t ih =>
      cases i with
      | zero => simp [List.getD]
      | succ n =>
          simp only [List.length_cons] at h
          simpa [List.getD] using ih n (by omega)

/-- `pyGet` at a natural-number index is plain list lookup. -/
theorem pyGet_natCast {α : Type} (l : List α) (i : ℕ) :
    pyGet l (i : Int) = l.get? i := by
  simp [pyGet]

/-- An in-range lookup returns the `getD` value. -/
theorem get?_eq_some_getD {α : Type} [Inhabited α] (l : List α) (i : ℕ)
    (h : i < l.length) :
    l.get? i = some (l.getD i default) := by
  rw [List.getD_eq_get? ]
  cases hq : l.get? i with
  | none =>
      have := List.get?_eq_none.mp hq
      omega
  | some a => rfl

/-- `_evaluate_condition` dispatches a `distance`-typed condition to the
distance check. -/
theorem evaluate_condition_distance (pose : List Landmark) (c : Condition)
    (h : c.type = some "distance") :
    evaluate_condition pose c = check_distance_condition pose c := by
  simp [evaluate_condition, h]

/-- `_evaluate_condition` dispatches an `angle`-typed condition to the angle
check. -/
theorem evaluate_condition_angle (pose : List Landmark) (c : Condition)
    (h : c.type = some "angle") :
    evaluate_condition pose c = check_angle_condition pose c := by
  have hne : c.type ≠ some "distance" := by simp [h]
  simp [evaluate_condition, h, hne]

/-- `_evaluate_condition` dispatches a `position`-typed condition to the
position check. -/
theorem evaluate_condition_position (pose : List Landmark) (c : Condition)
    (h : c.type = some "position") :
    evaluate_condition pose c = check_position_condition pose c := by
  have h1 : c.type ≠ some "distance" := by simp [h]
  have h2 : c.type ≠ some "angle" := by simp [h]
  simp [evaluate_condition, h, h1, h2]

/-- The strict bound test of the code, as a proposition. -/
theorem strict_within_iff (lo hi : Option ℝ) (v : ℝ) :
    ((match lo with
      | none => true
      | some m => decide (m < v)) &&
     (match hi with
      | none => true
      | some m => decide (v < m))) = true ↔ strict_within lo hi v := by
  cases lo <;> cases hi <;> simp [strict_within]

/-- The distance check at two in-range non-negative indices computes the
strict bound test on the 3-D distance between the indexed landmarks. -/
theorem check_distance_condition_valid (pose : List Landmark) (c : Condition)
    (i j : ℕ) (hi : i < pose.length) (hj : j < pose.length)
    (hpts : c.points = [(i : Int), (j : Int)]) :
    check_distance_condition pose c =
      some ((match c.min with
             | none => true
             | some m =>
                 decide (m < euclidean_distance (pose.getD i default)
                   (pose.getD j default))) &&
            (match c.max with
             | none => true
             | some m =>
                 decide (euclidean_distance (pose.getD i default)
                   (pose.getD j default) < m))) := by
  rw [check_distance_condition]
  rw [if_neg (by rw [hpts]; simp)]
  have hg : ¬((pose.length : Int) ≤ c.points.getD 0 0 ∨
      (pose.length : Int) ≤ c.points.getD 1 0) := by
    rw [hpts]
    push_neg
    constructor <;> simp <;> omega
  rw [if_neg hg, hpts]
  simp only [List.getD_cons_zero, List.getD_cons_succ]
  rw [pyGet_natCast, pyGet_natCast, get?_eq_some_getD _ _ hi, get?_eq_some_getD _ _ hj]

/-- The angle check at three in-range non-negative indices computes the
strict bound test on the angle at the middle landmark. -/
theorem check_angle_condition_valid (pose : List Landmark) (c : Condition)
    (i j k : ℕ) (hi : i < pose.length) (hj : j < pose.length) (hk : k < pose.length)
    (hpts : c.points = [(i : Int), (j : Int), (k : Int)]) :
    check_angle_condition pose c =
      some ((match c.min with
             | none => true
             | some m =>
                 decide (m < calculate_angle_three_points (pose.getD i default)
                   (pose.getD j default) (pose.getD k default))) &&
            (match c.max with
             | none => true
             | some m =>
                 decide (calculate_angle_three_points (pose.getD i default)
                   (pose.getD j default) (pose.getD k default) < m))) := by
  rw [check_angle_condition]
  rw [if_neg (by rw [hpts]; simp)]
  have hg : ¬((pose.length : Int) ≤ c.points.getD 0 0 ∨
      (pose.length : Int) ≤ c.points.getD 1 0 ∨
      (pose.length : Int) ≤ c.points.getD 2 0) := by
    rw [hpts]
    push_neg
    refine ⟨by simp; omega, by simp; omega, by simp; omega⟩
  rw [if_neg hg, hpts]
  simp only [List.getD_cons_zero, List.getD_cons_succ]
  rw [pyGet_natCast, pyGet_natCast, pyGet_natCast, get?_eq_some_getD _ _ hi,
    get?_eq_some_getD _ _ hj, get?_eq_some_getD _ _ hk]

/-- The centering step preserves the number of landmarks. -/
theorem center_step_length (b : Bool) (l : List Landmark) :
    (center_step b l).length = l.length := by
  unfold center_step
  split_ifs <;> simp

/-- The scaling step preserves the number of landmarks. -/
theorem scale_step_length (b : Bool) (l : List Landmark) :
    (scale_step b l).length = l.length := by
  unfold scale_step
  split_ifs <;> simp

/-- The rotation step preserves the number of landmarks. -/
theorem rotate_step_length (b : Bool) (l : List Landmark) :
    (rotate_step b l).length = l.length := by
  unfold rotate_step
  split_ifs <;> simp [rotate_points]

/-- A gesture's conditions all hold (result `some true`) iff every single
condition evaluates to `some true`. -/
theorem conditions_hold_eq_true_iff (pose : List Landmark) (cs : List Condition) :
    conditions_hold pose cs = some true ↔
      ∀ c ∈ cs, evaluate_condition pose c = some true := by
  induction cs with
  | nil => simp [conditions_hold]
  | cons c rest ih =>
      unfold conditions_hold
      cases h : evaluate_condition pose c with
      | none => simp [h]
      | some b =>
          cases b
          · simp [h]
          · simp [h, ih]

/-- If no condition of the list raises, the conjunction over the list does
not raise. -/
theorem conditions_hold_ne_none (pose : List Landmark) (cs : List Condition)
    (hok : ∀ c ∈ cs, evaluate_condition pose c ≠ none) :
    conditions_hold pose cs ≠ none := by
  induction cs with
  | nil => simp [conditions_hold]
  | cons c rest ih =>
      unfold conditions_hold
      cases h : evaluate_condition pose c with
      | none => exact absurd h (hok c (by simp))
      | some b =>
          cases b
          · simp
          · exact ih fun d hd => hok d (by simp [hd])

/-- The gesture loop returns the name of the first gesture whose conditions
all hold, provided no gesture's check raises. -/
theorem detect_go_eq_find (pose : List Landmark) (defs : List Gesture)
    (hok : ∀ g ∈ defs, check_gesture_conditions pose g ≠ none) :
    detect_go pose defs =
      some ((defs.find? fun g =>
        check_gesture_conditions pose g == some true).map Gesture.name) := by
  induction defs with
  | nil => simp [detect_go]
  | cons g rest ih =>
      unfold detect_go
      cases h : check_gesture_conditions pose g with
      | none => exact absurd h (hok g (by simp))
      | some b =>
          cases b
          · rw [List.find?_cons_of_neg _ (by simp [h])]
            exact ih fun d hd => hok d (by simp [hd])
          · rw [List.find?_cons_of_pos _ (by simp [h])]
            rfl

end

/-- C5: an input pose with fewer than 21 landmarks is returned unchanged by
`normalize_keypoints` for every transform configuration, and `detect_gesture`
returns no gesture (without raising) for every gesture list. -/
theorem undersized_pose_passthrough (cfg : TransformConfig) (defs : List Gesture)
    (pose : List Landmark) (h : pose.length < 21) :
    normalize_keypoints cfg pose = pose ∧ detect_gesture defs pose = some none := by
  exact ⟨by simp [normalize_keypoints, h], by simp [detect_gesture, h]⟩

/-- Witness for C5 at the empty pose. -/
theorem undersized_pose_passthrough_witness :
    normalize_keypoints cfgAll [] = [] ∧ detect_gesture [gestureA] [] = some none :=
  undersized_pose_passthrough cfgAll [gestureA] [] (by simp)

/-- C8: on a pose with at least 5 landmarks, `get_analogue_value` returns
`1 - landmark[4].y` exactly for the gesture name `thumbs_up`, and `none` for
every other name. -/
theorem get_analogue_value_spec (pose : List Landmark) (h : 5 ≤ pose.length)
    (name : String) :
    get_analogue_value pose "thumbs_up" = some (1 - (pose.getD 4 default).y) ∧
    (name ≠ "thumbs_up" → get_analogue_value pose name = none) := by
  constructor
  · simp [get_analogue_value, show 4 < pose.length by omega]
  · intro hn
    simp [get_analogue_value, hn]

/-- Witness for C8 at the all-zero pose. -/
theorem get_analogue_value_spec_witness :
    get_analogue_value poseZ "thumbs_up" = some 1 ∧
      get_analogue_value poseZ "fist" = none := by
  have h := get_analogue_value_spec poseZ (by simp [poseZ]) "fist"
  refine ⟨?_, h.2 (by simp)⟩
  rw [h.1]
  norm_num [poseZ, List.getD]

/-- C9: a condition whose type tag is none of `distance`, `angle`,
`position` evaluates to `some false` (no raise); so does a distance
condition without exactly 2 points and an angle condition without exactly
3 points; a gesture containing such a condition is never detected as
satisfied. -/
theorem unknown_condition_fail_closed (pose : List Landmark) (c : Condition)
    (g : Gesture) :
    (c.type ≠ some "distance" → c.type ≠ some "angle" → c.type ≠ some "position" →
      evaluate_condition pose c = some false) ∧
    (c.type = some "distance" → c.points.length ≠ 2 →
      evaluate_condition pose c = some false) ∧
    (c.type = some "angle" → c.points.length ≠ 3 →
      evaluate_condition pose c = some false) ∧
    (c ∈ g.conditions → evaluate_condition pose c = some false →
      check_gesture_conditions pose g ≠ some true) := by
  refine ⟨fun h1 h2 h3 => ?_, fun h1 h2 => ?_, fun h1 h2 => ?_, fun hc hev ht => ?_⟩
  · simp [evaluate_condition, h1, h2, h3]
  · simp [evaluate_condition, h1, check_distance_condition, h2]
  · have hne : c.type ≠ some "distance" := by simp [h1]
    simp [evaluate_condition, h1, hne, check_angle_condition, h2]
  · have := (conditions_hold_eq_true_iff pose g.conditions).mp ht c hc
    rw [hev] at this
    simp at this

/-- Witness for C9: an untyped condition and an underpopulated distance
condition both evaluate to `some false` on the all-zero pose, and a gesture
made of the untyped condition is not satisfied. -/
theorem unknown_condition_fail_closed_witness :
    evaluate_condition poseZ condUntyped = some false ∧
    evaluate_condition poseZ condOnePoint = some false ∧
    check_gesture_conditions poseZ ⟨"ghost", [condUntyped]⟩ ≠ some true := by
  have h1 := unknown_condition_fail_closed poseZ condUntyped ⟨"ghost", [condUntyped]⟩
  have h2 := unknown_condition_fail_closed poseZ condOnePoint ⟨"ghost", [condUntyped]⟩
  have e1 : evaluate_condition poseZ condUntyped = some false :=
    h1.1 (by simp [condUntyped]) (by simp [condUntyped]) (by simp [condUntyped])
  exact ⟨e1, h2.2.1 rfl (by simp [condOnePoint]),
    h1.2.2.2 (by simp) e1⟩

/-- C10: `normalize_keypoints` always preserves the number of landmarks, and
the rotation step preserves every landmark's z coordinate. -/
theorem normalize_length_rotation_z (cfg : TransformConfig)
    (pose : List Landmark) (angle : ℝ) :
    (normalize_keypoints cfg pose).length = pose.length ∧
    (rotate_points pose angle).length = pose.length ∧
    (∀ i, i < pose.length →
      ((rotate_points pose angle).getD i default).z = (pose.getD i default).z) := by
  refine ⟨?_, by simp [rotate_points], fun i hi => ?_⟩
  · unfold normalize_keypoints
    split_ifs
    · rfl
    · rw [rotate_step_length, scale_step_length, center_step_length]
  · rw [rotate_points, getD_map _ pose i hi]

/-- Witness for C10 at the all-zero pose with a rotation by 1 radian. -/
theorem normalize_length_rotation_z_witness :
    (normalize_keypoints cfgAll poseZ).length = poseZ.length ∧
    ((rotate_points poseZ 1).getD 3 default).z = (poseZ.getD 3 default).z := by
  have h := normalize_length_rotation_z cfgAll poseZ 1
  exact ⟨h.1, h.2.2 3 (by simp [poseZ])⟩

/-- The distance between the origin and the unit-x landmark is 1. -/
theorem dist_unit : euclidean_distance (⟨0, 0, 0⟩ : Landmark) ⟨1, 0, 0⟩ = 1 := by
  rw [euclidean_distance]
  norm_num

/-- The distance between coincident landmarks is 0. -/
theorem dist_same (p : Landmark) : euclidean_distance p p = 0 := by
  rw [euclidean_distance]
  simp

/-- C2: on a 21-point pose, when no condition raises, `detect_gesture`
returns the name of the first gesture (in definition order) whose
conditions all hold, and `none` when no gesture's conditions all hold;
a gesture's conditions hold exactly when every one of its conditions
evaluates true (AND-combined). -/
theorem detect_gesture_first_match (pose : List Landmark) (defs : List Gesture)
    (hlen : pose.length = 21)
    (hok : ∀ g ∈ defs, ∀ c ∈ g.conditions, evaluate_condition pose c ≠ none) :
    detect_gesture defs pose =
      some ((defs.find? fun g =>
        check_gesture_conditions pose g == some true).map Gesture.name) ∧
    ∀ g : Gesture, (check_gesture_conditions pose g = some true ↔
      ∀ c ∈ g.conditions, evaluate_condition pose c = some true) := by
  constructor
  · rw [detect_gesture, if_neg (by omega)]
    exact detect_go_eq_find pose defs fun g hg =>
      conditions_hold_ne_none pose g.conditions (hok g hg)
  · exact fun g => conditions_hold_eq_true_iff pose g.conditions

/-- Witness for C2: two always-satisfied gestures; `detect_gesture` returns
whichever is listed first, in both orders. -/
theorem detect_gesture_first_match_witness :
    detect_gesture [gestureA, gestureB] poseZ = some (some "open_palm") ∧
    detect_gesture [gestureB, gestureA] poseZ = some (some "fist") := by
  have ht : evaluate_condition poseZ condTrue = some true := rfl
  have hok1 : ∀ g ∈ [gestureA, gestureB], ∀ c ∈ g.conditions,
      evaluate_condition poseZ c ≠ none := by
    intro g hg c hc
    have hgs : g = gestureA ∨ g = gestureB := by simpa using hg
    rcases hgs with rfl | rfl <;>
      · have hcc : c = condTrue := by simpa [gestureA, gestureB] using hc
        rw [hcc, ht]
        simp
  have hok2 : ∀ g ∈ [gestureB, gestureA], ∀ c ∈ g.conditions,
      evaluate_condition poseZ c ≠ none := by
    intro g hg c hc
    exact hok1 g (by simpa [or_comm] using hg) c hc
  have h1 := detect_gesture_first_match poseZ [gestureA, gestureB]
    (by simp [poseZ]) hok1
  have h2 := detect_gesture_first_match poseZ [gestureB, gestureA]
    (by simp [poseZ]) hok2
  rw [h1.1, h2.1]
  have hA : check_gesture_conditions poseZ gestureA = some true := by
    rw [(h1.2 gestureA)]
    intro c hc
    have hcc : c = condTrue := by simpa [gestureA] using hc
    rw [hcc, ht]
  have hB : check_gesture_conditions poseZ gestureB = some true := by
    rw [(h1.2 gestureB)]
    intro c hc
    have hcc : c = condTrue := by simpa [gestureB] using hc
    rw [hcc, ht]
  rw [List.find?_cons_of_pos _ (by simp [hA]), List.find?_cons_of_pos _ (by simp [hB])]
  exact ⟨rfl, rfl⟩

/-- C1 (amended): for a 21-point pose and in-range indices, a distance
condition evaluates true iff `min < distance3D(pose[a], pose[b]) < max`
with STRICT bounds (absent bound = no constraint), and an angle condition
evaluates true iff `min < angleAtVertex(pose[a], pose[b], pose[c]) < max`,
also strict. -/
theorem condition_bounds_strict (pose : List Landmark) (hlen : pose.length = 21)
    (c : Condition) :
    (∀ i j : ℕ, i < 21 → j < 21 → c.type = some "distance" →
        c.points = [(i : Int), (j : Int)] →
      (evaluate_condition pose c = some true ↔
        strict_within c.min c.max
          (euclidean_distance (pose.getD i default) (pose.getD j default)))) ∧
    (∀ i j k : ℕ, i < 21 → j < 21 → k < 21 → c.type = some "angle" →
        c.points = [(i : Int), (j : Int), (k : Int)] →
      (evaluate_condition pose c = some true ↔
        strict_within c.min c.max
          (calculate_angle_three_points (pose.getD i default)
            (pose.getD j default) (pose.getD k default)))) := by
  constructor
  · intro i j hi hj hty hpts
    rw [evaluate_condition_distance pose c hty,
      check_distance_condition_valid pose c i j (by omega) (by omega) hpts]
    rw [Option.some_inj]
    exact strict_within_iff c.min c.max _
  · intro i j k hi hj hk hty hpts
    rw [evaluate_condition_angle pose c hty,
      check_angle_condition_valid pose c i j k (by omega) (by omega) (by omega) hpts]
    rw [Option.some_inj]
    exact strict_within_iff c.min c.max _

/-- Counterexample for C1: on `poseD1` the 0-to-1 distance is exactly the
configured `max` of `condAtMax`; the claimed inclusive semantics accepts
it, but the code evaluates the condition to false. -/
theorem condition_bounds_inclusive_cex :
    incl_within condAtMax.min condAtMax.max
      (euclidean_distance (poseD1.getD 0 default) (poseD1.getD 1 default)) ∧
    evaluate_condition poseD1 condAtMax = some false := by
  have hd : euclidean_distance (poseD1.getD 0 default) (poseD1.getD 1 default) = 1 := by
    show euclidean_distance ⟨0, 0, 0⟩ ⟨1, 0, 0⟩ = 1
    exact dist_unit
  constructor
  · refine ⟨by simp [condAtMax], ?_⟩
    intro m hm
    have hm1 : (1 : ℝ) = m := by simpa [condAtMax] using hm
    rw [← hm1, hd]
  · rw [evaluate_condition_distance poseD1 condAtMax rfl,
      check_distance_condition_valid poseD1 condAtMax 0 1 (by simp [poseD1])
        (by simp [poseD1]) rfl, hd]
    simp [condAtMax]

/-- Witness for C1 (amended): the 0-to-1 distance on `poseD1` is 1, which
lies strictly below the `max = 2` bound of `condBelow2`, so the condition
evaluates true. -/
theorem condition_bounds_strict_witness :
    evaluate_condition poseD1 condBelow2 = some true := by
  have hd : euclidean_distance (poseD1.getD 0 default) (poseD1.getD 1 default) = 1 := by
    show euclidean_distance ⟨0, 0, 0⟩ ⟨1, 0, 0⟩ = 1
    exact dist_unit
  have h := (condition_bounds_strict poseD1 (by simp [poseD1]) condBelow2).1
    0 1 (by omega) (by omega) rfl rfl
  rw [h, hd]
  refine ⟨by simp [condBelow2], ?_⟩
  intro m hm
  have hm2 : (2 : ℝ) = m := by simpa [condBelow2] using hm
  rw [← hm2]
  norm_num

/-- C6 (amended): on a 21-point pose, a distance or angle condition
referencing an index `≥ 21` evaluates to `some false`, as does a position
condition with point index `≥ 21`; a negative index `i` with `-21 ≤ i < 0`
is NOT rejected: the lookup wraps around to entry `i + 21` (Python
semantics), and an index below `-21` raises IndexError. -/
theorem out_of_range_index_behavior (pose : List Landmark) (hlen : pose.length = 21)
    (c : Condition) :
    ((c.type = some "distance" ∨ c.type = some "angle") →
      (∃ i ∈ c.points, (21 : Int) ≤ i) → evaluate_condition pose c = some false) ∧
    (c.type = some "position" → (21 : Int) ≤ c.point →
      evaluate_condition pose c = some false) ∧
    (∀ i : Int, -21 ≤ i → i < 0 → pyGet pose i = pose.get? (i + 21).toNat) ∧
    (∀ i : Int, i < -21 → pyGet pose i = none) := by
  have hcast : (pose.length : Int) = 21 := by rw [hlen]; norm_num
  refine ⟨?_, ?_, ?_, ?_⟩
  · rintro (hty | hty) ⟨i, hmem, hge⟩
    · rw [evaluate_condition_distance pose c hty, check_distance_condition]
      by_cases h2 : c.points.length = 2
      · obtain ⟨a, b, hab⟩ := List.length_eq_two.mp h2
        have hmem2 : i = a ∨ i = b := by simpa [hab] using hmem
        have hguard : (pose.length : Int) ≤ c.points.getD 0 0 ∨
            (pose.length : Int) ≤ c.points.getD 1 0 := by
          rw [hab, hcast]
          simp only [List.getD_cons_zero, List.getD_cons_succ]
          rcases hmem2 with rfl | rfl
          · exact Or.inl hge
          · exact Or.inr hge
        rw [if_neg (by rw [hab]; simp), if_pos hguard]
      · rw [if_pos h2]
    · rw [evaluate_condition_angle pose c hty, check_angle_condition]
      by_cases h3 : c.points.length = 3
      · obtain ⟨a, b, d, hab⟩ := List.length_eq_three.mp h3
        have hmem3 : i = a ∨ i = b ∨ i = d := by simpa [hab] using hmem
        have hguard : (pose.length : Int) ≤ c.points.getD 0 0 ∨
            (pose.length : Int) ≤ c.points.getD 1 0 ∨
            (pose.length : Int) ≤ c.points.getD 2 0 := by
          rw [hab, hcast]
          simp only [List.getD_cons_zero, List.getD_cons_succ]
          rcases hmem3 with rfl | rfl | rfl
          · exact Or.inl hge
          · exact Or.inr (Or.inl hge)
          · exact Or.inr (Or.inr hge)
        rw [if_neg (by rw [hab]; simp), if_pos hguard]
      · rw [if_pos h3]
  · intro hty hp
    rw [evaluate_condition_position pose c hty, check_position_condition,
      if_pos (by rw [hcast]; exact hp)]
  · intro i h1 h2
    rw [pyGet, if_neg (by omega), hcast, if_neg (by omega)]
  · intro i hi
    rw [pyGet, if_neg (by omega), hcast, if_pos (by omega)]

/-- Counterexample for C6: the condition `condNegIdx` references the
negative landmark index `-1`, yet it evaluates to `some true` on the
all-zero 21-point pose (the lookup wraps to landmark 20), so a gesture
containing it CAN be detected. -/
theorem negative_index_condition_matches :
    (-1 : Int) ∈ condNegIdx.points ∧
    evaluate_condition poseZ condNegIdx = some true := by
  refine ⟨by simp [condNegIdx], ?_⟩
  have hred : evaluate_condition poseZ condNegIdx =
      some (true && decide (euclidean_distance (⟨0, 0, 0⟩ : Landmark) ⟨0, 0, 0⟩ < 10)) :=
    rfl
  rw [hred, dist_same]
  norm_num

/-- Witness for C6 (amended): index 99 on a 21-point pose fails closed, and
index `-22` raises. -/
theorem out_of_range_index_behavior_witness :
    evaluate_condition poseZ condIdx99 = some false ∧
    pyGet poseZ (-22) = none := by
  have h := out_of_range_index_behavior poseZ (by simp [poseZ]) condIdx99
  exact ⟨h.1 (Or.inl rfl) ⟨99, by simp [condIdx99], by norm_num⟩,
    h.2.2.2 (-22) (by norm_num)⟩

/-- C7: degenerate geometry never raises: the three-point angle is 0 when
either vector from the vertex has zero 2-D magnitude, every three-point
angle lies in `[0, 180]` (clamped cosine), and with a zero
wrist-to-middle-finger-base reference the scaling step leaves the pose
as-is (no division). -/
theorem degenerate_geometry_totality (p1 p2 p3 : Landmark) (pose : List Landmark)
    (hv : (p1.x = p2.x ∧ p1.y = p2.y) ∨ (p3.x = p2.x ∧ p3.y = p2.y))
    (hscale : euclidean_distance (pose.getD 0 default) (pose.getD 9 default) = 0) :
    calculate_angle_three_points p1 p2 p3 = 0 ∧
    (∀ q1 q2 q3 : Landmark, 0 ≤ calculate_angle_three_points q1 q2 q3 ∧
      calculate_angle_three_points q1 q2 q3 ≤ 180) ∧
    scale_step true pose = pose := by
  refine ⟨?_, ?_, ?_⟩
  · simp only [calculate_angle_three_points]
    rcases hv with ⟨hx, hy⟩ | ⟨hx, hy⟩
    · rw [if_pos (Or.inl (by rw [hx, hy]; simp))]
    · rw [if_pos (Or.inr (by rw [hx, hy]; simp))]
  · intro q1 q2 q3
    simp only [calculate_angle_three_points]
    split_ifs with h
    · norm_num
    · constructor
      · exact mul_nonneg (Real.arccos_nonneg _) (by positivity)
      · calc Real.arccos _ * (180 / Real.pi)
              ≤ Real.pi * (180 / Real.pi) :=
                mul_le_mul_of_nonneg_right (Real.arccos_le_pi _) (by positivity)
          _ = 180 := by field_simp
  · rw [scale_step, if_pos rfl]
    split_ifs with h9 hpos
    · exact absurd (hscale ▸ hpos) (lt_irrefl 0)
    · rfl
    · rfl

/-- Witness for C7: a degenerate vertex gives angle 0, a right angle lies in
range, and the all-zero pose (zero scale reference) is left unscaled. -/
theorem degenerate_geometry_totality_witness :
    calculate_angle_three_points ⟨0, 0, 0⟩ ⟨0, 0, 0⟩ ⟨1, 0, 0⟩ = 0 ∧
    (0 ≤ calculate_angle_three_points ⟨1, 0, 0⟩ ⟨0, 0, 0⟩ ⟨0, 1, 0⟩ ∧
      calculate_angle_three_points ⟨1, 0, 0⟩ ⟨0, 0, 0⟩ ⟨0, 1, 0⟩ ≤ 180) ∧
    scale_step true poseZ = poseZ := by
  have h := degenerate_geometry_totality ⟨0, 0, 0⟩ ⟨0, 0, 0⟩ ⟨1, 0, 0⟩ poseZ
    (Or.inl ⟨rfl, rfl⟩)
    (by show euclidean_distance (⟨0, 0, 0⟩ : Landmark) ⟨0, 0, 0⟩ = 0; exact dist_same _)
  exact ⟨h.1, h.2.1 _ _ _, h.2.2⟩

/-- C3: at the concrete pose `poseUp` (wrist at origin, index tip at
`(0,1,0)`, a non-degenerate wrist-to-index vector), normalizing with only
rotation invariance enabled leaves the landmark-0-to-landmark-8 bearing at
0 (the vector is rotated onto the positive x-axis, i.e. horizontal), not at
`π/2` (vertical) as the spec and the code's own comment state. -/
theorem rotation_bearing_zero_not_vertical :
    calculate_angle ((normalize_keypoints cfgRot poseUp).getD 0 default)
      ((normalize_keypoints cfgRot poseUp).getD 8 default) = 0 ∧
    Real.pi / 2 ≠ 0 := by
  have hlen : poseUp.length = 21 := by simp [poseUp]
  have h0 : poseUp.getD 0 default = ⟨0, 0, 0⟩ := rfl
  have h8 : poseUp.getD 8 default = ⟨0, 1, 0⟩ := rfl
  have hang : calculate_angle (⟨0, 0, 0⟩ : Landmark) ⟨0, 1, 0⟩ = Real.pi / 2 := by
    rw [calculate_angle, atan2]
    norm_num
  have hnorm : normalize_keypoints cfgRot poseUp =
      rotate_points poseUp (-(Real.pi / 2)) := by
    rw [normalize_keypoints, if_neg (by rw [hlen]; omega)]
    show rotate_step true poseUp = _
    rw [rotate_step, if_pos rfl, if_pos (by rw [hlen]; omega), h0, h8, hang]
  have g0 : (rotate_points poseUp (-(Real.pi / 2))).getD 0 default = ⟨0, 0, 0⟩ := by
    rw [rotate_points, getD_map _ _ 0 (by rw [hlen]; omega), h0]
    ext <;> simp
  have g8 : (rotate_points poseUp (-(Real.pi / 2))).getD 8 default = ⟨1, 0, 0⟩ := by
    rw [rotate_points, getD_map _ _ 8 (by rw [hlen]; omega), h8]
    ext <;> simp
  rw [hnorm, g0, g8]
  constructor
  · rw [calculate_angle, atan2]
    norm_num [Real.arctan_zero]
  · exact ne_of_gt (by positivity)

/-- Scaling both landmarks by a non-negative factor scales their distance. -/
theorem euclidean_distance_smul (k : ℝ) (hk : 0 ≤ k) (p q : Landmark) :
    euclidean_distance ⟨k * p.x, k * p.y, k * p.z⟩ ⟨k * q.x, k * q.y, k * q.z⟩ =
      k * euclidean_distance p q := by
  rw [euclidean_distance, euclidean_distance]
  rw [show (k * p.x - k * q.x) * (k * p.x - k * q.x) +
      (k * p.y - k * q.y) * (k * p.y - k * q.y) +
      (k * p.z - k * q.z) * (k * p.z - k * q.z) =
      k ^ 2 * ((p.x - q.x) * (p.x - q.x) + (p.y - q.y) * (p.y - q.y) +
        (p.z - q.z) * (p.z - q.z)) from by ring]
  rw [Real.sqrt_mul (sq_nonneg k), Real.sqrt_sq hk]

/-- Translating both landmarks by the same offset preserves their
distance. -/
theorem euclidean_distance_sub (w p q : Landmark) :
    euclidean_distance ⟨p.x - w.x, p.y - w.y, p.z - w.z⟩
      ⟨q.x - w.x, q.y - w.y, q.z - w.z⟩ = euclidean_distance p q := by
  rw [euclidean_distance, euclidean_distance]
  congr 1
  ring

/-- Uniform scaling preserves the number of landmarks. -/
theorem scale_pose_length (k : ℝ) (l : List Landmark) :
    (scale_pose k l).length = l.length := by
  simp [scale_pose]

/-- The centering step commutes with uniform scaling. -/
theorem center_step_scale_pose (b : Bool) (k : ℝ) (l : List Landmark) :
    center_step b (scale_pose k l) = scale_pose k (center_step b l) := by
  cases b
  · rfl
  · cases l with
    | nil => rfl
    | cons p t =>
        simp only [center_step, scale_pose, if_true, List.map_cons, List.map_map,
          List.getD_cons_zero]
        congr 1
        · ext <;> simp
        · congr 1
          funext q
          ext <;> simp [Function.comp] <;> ring

/-- Wrist-centering does not change the wrist-to-middle-finger-base
reference distance. -/
theorem center_step_ref_dist (b : Bool) (l : List Landmark) (h9 : 9 < l.length) :
    euclidean_distance ((center_step b l).getD 0 default)
        ((center_step b l).getD 9 default) =
      euclidean_distance (l.getD 0 default) (l.getD 9 default) := by
  cases b
  · rfl
  · rw [center_step, if_pos rfl, getD_map _ _ 0 (by omega), getD_map _ _ 9 (by omega)]
    exact euclidean_distance_sub _ _ _

/-- The scaling step cancels a prior uniform scaling by a positive factor
when the reference distance is positive. -/
theorem scale_step_scale_pose (k : ℝ) (hk : 0 < k) (l : List Landmark)
    (h9 : 9 < l.length)
    (href : 0 < euclidean_distance (l.getD 0 default) (l.getD 9 default)) :
    scale_step true (scale_pose k l) = scale_step true l := by
  have h0 : (scale_pose k l).getD 0 default =
      ⟨k * (l.getD 0 default).x, k * (l.getD 0 default).y, k * (l.getD 0 default).z⟩ := by
    rw [scale_pose, getD_map _ _ 0 (by omega)]
  have h9' : (scale_pose k l).getD 9 default =
      ⟨k * (l.getD 9 default).x, k * (l.getD 9 default).y, k * (l.getD 9 default).z⟩ := by
    rw [scale_pose, getD_map _ _ 9 (by omega)]
  have hs : euclidean_distance ((scale_pose k l).getD 0 default)
      ((scale_pose k l).getD 9 default) =
      k * euclidean_distance (l.getD 0 default) (l.getD 9 default) := by
    rw [h0, h9', euclidean_distance_smul k hk.le]
  rw [scale_step, scale_step, if_pos rfl, if_pos rfl,
    if_pos (by rw [scale_pose_length]; omega), if_pos h9, hs,
    if_pos (mul_pos hk href), if_pos href]
  rw [scale_pose, List.map_map]
  congr 1
  funext q
  ext <;> simp <;> exact mul_div_mul_left _ _ hk.ne'

/-- C4: with scale invariance enabled, a positive scale reference and any
positive factor `k`, normalizing the uniformly scaled pose `k·P` yields
exactly the same canonical pose as normalizing `P`, for every setting of
the other transform flags. -/
theorem normalize_scale_invariant (cfg : TransformConfig)
    (hs : cfg.scale_invariant = true) (pose : List Landmark)
    (hlen : pose.length = 21) (k : ℝ) (hk : 0 < k)
    (href : 0 < euclidean_distance (pose.getD 0 default) (pose.getD 9 default)) :
    normalize_keypoints cfg (scale_pose k pose) = normalize_keypoints cfg pose := by
  have h9c : 9 < (center_step cfg.displacement_invariant pose).length := by
    rw [center_step_length]
    omega
  have hrefc : 0 < euclidean_distance
      ((center_step cfg.displacement_invariant pose).getD 0 default)
      ((center_step cfg.displacement_invariant pose).getD 9 default) := by
    rw [center_step_ref_dist _ _ (by omega)]
    exact href
  rw [normalize_keypoints, normalize_keypoints,
    if_neg (by rw [scale_pose_length, hlen]; omega), if_neg (by rw [hlen]; omega),
    hs, center_step_scale_pose, scale_step_scale_pose k hk _ h9c hrefc]

/-- Witness for C4: doubling `poseS` (whose scale reference is 1) does not
change its canonical pose under the all-transforms configuration. -/
theorem normalize_scale_invariant_witness :
    normalize_keypoints cfgAll (scale_pose 2 poseS) = normalize_keypoints cfgAll poseS := by
  refine normalize_scale_invariant cfgAll rfl poseS (by simp [poseS]) 2 (by norm_num) ?_
  show 0 < euclidean_distance ⟨0, 0, 0⟩ ⟨1, 0, 0⟩
  rw [dist_unit]
  norm_num

end GestureDetection
